import Mathlib

set_option linter.unusedVariables false

namespace Solph

/-!
Shallow embedding of the oemof-solph formulation engine (investment flows,
non-convex flows, bus balances, transformer relations, investment limits).
Capacities, flow values and costs are modelled as rationals; solver variables
of one flow are gathered into assignment structures, and each Pyomo
constraint-building rule is translated into a Lean function that either
produces the emitted constraints (as data or as satisfaction predicates over
assignments) or fails the way the Python code raises.
-/

/-- Values of the per-period solver variables of a single investment flow:
`invest[p]`, `total[p]` and `old[p]` from
`InvestmentFlowBlock._create_variables`. -/
structure InvestAssign where
  invest : Nat → ℚ
  total : Nat → ℚ
  old : Nat → ℚ

/-- Constraint emitted by
`InvestmentFlowBlock._create_constraints._total_capacity_rule`
(src/src/oemof/solph/flows/_investment_flow_block.py, lines 438-459) for one
flow and one period `p`: for `p = 0` it is `total[0] == invest[0] + existing`,
for `p > 0` it is `total[p] == invest[p] + total[p-1] - old[p]`. -/
def total_capacity_rule (existing : ℚ) (a : InvestAssign) (p : Nat) : Prop :=
  if p = 0 then
    a.total p = a.invest p + existing
  else
    a.total p = a.invest p + a.total (p - 1) - a.old p

/-- Constraint emitted by `MultiPeriodInvestmentFlow._create._total_capacity_rule`
(src/src/oemof/solph/blocks.py, lines 1220-1236); textually the same rule as in
the investment-flow block, with `existing` read from the
`multiperiodinvestment` attribute. -/
def mp_total_capacity_rule (existing : ℚ) (a : InvestAssign) (p : Nat) : Prop :=
  if p = 0 then
    a.total p = a.invest p + existing
  else
    a.total p = a.invest p + a.total (p - 1) - a.old p

/-- The total-capacity equations as the specification words them:
`total(0) == invest(0) + existing` and, for `p > 0`,
`total(p) == total(p-1) + invest(p) - old(p)`. -/
def total_capacity_claimed (existing : ℚ) (a : InvestAssign) (p : Nat) : Prop :=
  if p = 0 then
    a.total 0 = a.invest 0 + existing
  else
    a.total p = a.total (p - 1) + a.invest p - a.old p

/-- Per-period objective increment for a convex investment flow in a
multi-period model, from `InvestmentFlowBlock._objective_expression`
(src/src/oemof/solph/flows/_investment_flow_block.py, lines 812-825):
`invest[p] * annuity * lifetime * (1 + discount_rate) ** (-periods_years[p])`.
The annuity value is computed by the external `oemof.tools.economics.annuity`
from `ep_costs[p]`, so it is passed in as a per-period parameter. -/
def invf_convex_cost (annuity : Nat → ℚ) (lifetime dr : ℚ)
    (periods_years : Nat → ℕ) (invest : Nat → ℚ) (p : Nat) : ℚ :=
  invest p * annuity p * lifetime * (1 + dr) ^ (-(periods_years p : ℤ))

/-- Per-period objective increment for a non-convex investment flow in a
multi-period model, from `InvestmentFlowBlock._objective_expression`
(lines 836-846): `(invest[p] * annuity * lifetime
+ invest_status[p] * offset[p]) * (1 + discount_rate) ** (-periods_years[p])`. -/
def invf_nonconvex_cost (annuity : Nat → ℚ) (lifetime dr : ℚ)
    (periods_years : Nat → ℕ) (invest invest_status offset : Nat → ℚ)
    (p : Nat) : ℚ :=
  (invest p * annuity p * lifetime + invest_status p * offset p) *
    (1 + dr) ^ (-(periods_years p : ℤ))

/-- Per-period objective increment for a convex flow from
`MultiPeriodInvestmentFlow._objective_expression`
(src/src/oemof/solph/blocks.py, lines 1409-1417): the discount exponent is the
period index `p` itself; in that block periods are counted directly in years
(its lifetime arithmetic compares `lifetime <= p` and reads
`invest[p - lifetime]`). -/
def mp_convex_cost (annuity : Nat → ℚ) (lifetime dr : ℚ)
    (invest : Nat → ℚ) (p : Nat) : ℚ :=
  invest p * annuity p * lifetime * (1 + dr) ^ (-(p : ℤ))

/-- Per-period objective increment for a non-convex flow from
`MultiPeriodInvestmentFlow._objective_expression`
(src/src/oemof/solph/blocks.py, lines 1430-1440). -/
def mp_nonconvex_cost (annuity : Nat → ℚ) (lifetime dr : ℚ)
    (invest invest_status offset : Nat → ℚ) (p : Nat) : ℚ :=
  (invest p * annuity p * lifetime + invest_status p * offset p) *
    (1 + dr) ^ (-(p : ℤ))

/-- The convex objective contribution as the specification words it:
`invest(p) * annuity(ep_cost(p), lifetime, interest) * lifetime` discounted by
`(1 + discount_rate) ** (-year(p))`, where `year` maps a period to its year
offset. -/
def claimed_convex_cost (annuity : Nat → ℚ) (lifetime dr : ℚ)
    (year : Nat → ℕ) (invest : Nat → ℚ) (p : Nat) : ℚ :=
  invest p * annuity p * lifetime * (1 + dr) ^ (-(year p : ℤ))

/-- The non-convex objective contribution as the specification words it: the
convex contribution plus `invested(p) * offset(p)`, under the same discount
factor `(1 + discount_rate) ** (-year(p))`. -/
def claimed_nonconvex_cost (annuity : Nat → ℚ) (lifetime dr : ℚ)
    (year : Nat → ℕ) (invest invest_status offset : Nat → ℚ) (p : Nat) : ℚ :=
  (invest p * annuity p * lifetime + invest_status p * offset p) *
    (1 + dr) ^ (-(year p : ℤ))

/-- Investment specification attributes of one flow read by
`InvestmentFlowBlock._create_constraints`: `lifetime` (absent when the user
did not set it), `age` and `existing`. -/
structure InvFlowSpec where
  lifetime : Option ℤ
  age : ℤ
  existing : ℚ

/-- Right-hand side of an `old_rule_end` constraint: either `old_end[p] == 0`
or `old_end[p] == invest[comm_p]`. -/
inductive OldEndRhs where
  | zero
  | investAt (comm : ℤ)
  deriving DecidableEq

/-- The commissioning-period scan inside
`InvestmentFlowBlock._create_constraints._old_capacity_rule_end`
(src/src/oemof/solph/flows/_investment_flow_block.py, lines 489-495):
`comm_p` starts at 0; scanning `periods_years` in period order, the first `k`
with `periods_years[p] - lifetime - periods_years[k] < 0` sets
`comm_p = k - 1` and breaks. -/
def comm_p_scan (years_p lifetime : ℤ) (periods_years : Nat → ℤ)
    (P : Nat) : ℤ :=
  match (List.range P).find?
      (fun k => decide (years_p - lifetime - periods_years k < 0)) with
  | some k => (k : ℤ) - 1
  | none => 0

/-- The body of
`InvestmentFlowBlock._create_constraints._old_capacity_rule_end` for one flow
(lines 472-503): a missing lifetime raises a `ValueError` naming the flow;
otherwise, for each period `p`, `old_end[p] == 0` for `p = 0`,
`old_end[p] == invest[comm_p]` when `lifetime <= periods_years[p]`, and
`old_end[p] == 0` otherwise. -/
def old_capacity_rule_end_flow (label : String) (f : InvFlowSpec)
    (periods_years : Nat → ℤ) (P : Nat) :
    Except String (List (Nat × OldEndRhs)) :=
  match f.lifetime with
  | none =>
    Except.error
      ("You have to specify a lifetime for a Flow with an associated " ++
        "investment object in a multi-period model! Value for " ++ label ++
        " is missing.")
  | some lifetime =>
    Except.ok ((List.range P).map (fun p =>
      if p = 0 then (p, OldEndRhs.zero)
      else if lifetime ≤ periods_years p then
        (p, OldEndRhs.investAt
          (comm_p_scan (periods_years p) lifetime periods_years P))
      else (p, OldEndRhs.zero)))

/-- The loop of `_old_capacity_rule_end` over all investment flows of the
group: the first flow that raises aborts the build action. -/
def old_rule_end_flows : List (String × InvFlowSpec) → (Nat → ℤ) → Nat →
    Except String (List (String × List (Nat × OldEndRhs)))
  | [], _, _ => Except.ok []
  | (label, f) :: rest, periods_years, P =>
    match old_capacity_rule_end_flow label f periods_years P with
    | Except.error e => Except.error e
    | Except.ok cs =>
      match old_rule_end_flows rest periods_years P with
      | Except.error e => Except.error e
      | Except.ok others => Except.ok ((label, cs) :: others)

/-- `InvestmentFlowBlock._create_constraints` builds the `old_rule_end`
constraints only under `if m.es.multi_period:` (line 466); in a single-period
model the rule never runs and nothing can raise. -/
def old_rule_end_build (multi_period : Bool)
    (group : List (String × InvFlowSpec)) (periods_years : Nat → ℤ)
    (P : Nat) : Except String (List (String × List (Nat × OldEndRhs))) :=
  if multi_period then old_rule_end_flows group periods_years P
  else Except.ok []

/-- One step of
`InvestmentFlowBlock._create_constraints._old_capacity_rule_exo`
(src/src/oemof/solph/flows/_investment_flow_block.py, lines 514-536), looping
over the remaining periods and threading the `is_decommissioned` flag: period
0 pins `old_exo` to 0; afterwards, the first period with
`lifetime - age <= periods_years[p]` pins it to `existing` and sets the flag;
every other period pins it to 0. Each pair `(p, v)` stands for the emitted
constraint `old_exo[p] == v`. -/
def old_exo_loop (lifetime age : ℤ) (existing : ℚ)
    (periods_years : Nat → ℤ) :
    List Nat → Bool → List (Nat × ℚ)
  | [], _ => []
  | p :: ps, is_decommissioned =>
    if p = 0 then
      (p, 0) ::
        old_exo_loop lifetime age existing periods_years ps is_decommissioned
    else if lifetime - age ≤ periods_years p then
      if is_decommissioned = false then
        (p, existing) :: old_exo_loop lifetime age existing periods_years ps true
      else
        (p, 0) ::
          old_exo_loop lifetime age existing periods_years ps is_decommissioned
    else
      (p, 0) ::
        old_exo_loop lifetime age existing periods_years ps is_decommissioned

/-- The `old_rule_exo` constraints of one flow over periods `0 .. P-1`. -/
def old_capacity_rule_exo (lifetime age : ℤ) (existing : ℚ)
    (periods_years : Nat → ℤ) (P : Nat) : List (Nat × ℚ) :=
  old_exo_loop lifetime age existing periods_years (List.range P) false

/-- The value of the `is_decommissioned` flag after processing a list of
periods (proof helper mirroring the branch structure of `old_exo_loop`). -/
def old_exo_flag (lifetime age : ℤ) (periods_years : Nat → ℤ) :
    List Nat → Bool → Bool
  | [], b => b
  | p :: ps, b =>
    if p = 0 then old_exo_flag lifetime age periods_years ps b
    else if lifetime - age ≤ periods_years p then
      if b = false then old_exo_flag lifetime age periods_years ps true
      else old_exo_flag lifetime age periods_years ps b
    else old_exo_flag lifetime age periods_years ps b

/-- Whether period `p` would trip the decommissioning flag: it is not the
first period and satisfies `lifetime - age ≤ periods_years p` (proof helper
for reasoning about `old_exo_flag`). -/
def old_exo_hit (lifetime age : ℤ) (periods_years : Nat → ℤ) (p : Nat) :
    Bool :=
  decide (p ≠ 0) && decide (lifetime - age ≤ periods_years p)

/-- Value the exogenous decommissioning constraint actually pins `old_exo[p]`
to: `existing` at the first period `p ≥ 1` satisfying
`lifetime - age ≤ periods_years p`, and 0 everywhere else. -/
def old_exo_value (lifetime age : ℤ) (existing : ℚ)
    (periods_years : Nat → ℤ) (p : Nat) : ℚ :=
  if p ≠ 0 ∧ lifetime - age ≤ periods_years p ∧
      ∀ k, k < p → 0 < k → ¬(lifetime - age ≤ periods_years k) then
    existing
  else 0

/-- Claim C5 as stated: `old_exo` equals `existing` in exactly one period,
namely the first period `p` for which `lifetime - age <= periods_years p`
holds, and equals zero in every other period. -/
def old_exo_claim_as_stated (lifetime age : ℤ) (existing : ℚ)
    (periods_years : Nat → ℤ) (P : Nat) : Prop :=
  ∃ p, p < P ∧ (lifetime - age ≤ periods_years p) ∧
    (∀ k, k < p → ¬(lifetime - age ≤ periods_years k)) ∧
    (p, existing) ∈ old_capacity_rule_exo lifetime age existing periods_years P ∧
    ∀ q, q < P → q ≠ p →
      (q, (0 : ℚ)) ∈ old_capacity_rule_exo lifetime age existing periods_years P

/-- Python exceptions that can escape
`Transformer._create._input_output_relation`: the `ValueError` re-raised by
its `except ValueError` handler, and the `KeyError` a dict lookup with a
missing key raises (carrying the string form of the key). -/
inductive PyErr where
  | valueError (msg : String)
  | keyError (key : String)
  deriving DecidableEq

/-- Association-list form of a Python dict of conversion-factor sequences,
keyed by the node id of the incident bus. -/
def assoc_find : List (Nat × (Nat → ℚ)) → Nat → Option (Nat → ℚ)
  | [], _ => none
  | (k, v) :: rest, key => if k = key then some v else assoc_find rest key

/-- A converter node as read by `Transformer._create`
(src/src/oemof/solph/blocks.py, lines 1598-1630): its label, input node ids,
output node ids and its `conversion_factors` dict. -/
structure TransformerNode where
  label : String
  inputs : List Nat
  outputs : List Nat
  conversion_factors : List (Nat × (Nat → ℚ))

/-- One emitted relation constraint
`flow[i, n, t] * factor_o(t) == flow[n, o, t] * factor_i(t)` with the two
factor values already evaluated at `t`. -/
structure RelConstr where
  i : Nat
  o : Nat
  t : Nat
  factor_o : ℚ
  factor_i : ℚ
  deriving DecidableEq

/-- The `try`/`except ValueError` body of
`Transformer._create._input_output_relation` (src/src/oemof/solph/blocks.py,
lines 1618-1628) for one `(t, o, i)`: it looks up `conversion_factors[o]`
then `conversion_factors[i]` (a missing key raises `KeyError(key)`), and only
a `ValueError` raised inside the `try` block is replaced by the labelled
`ValueError` naming the node and the output flow. -/
def relation_attempt (flow_label : Nat → String)
    (factors : List (Nat × (Nat → ℚ))) (t o i : Nat) : Except PyErr RelConstr :=
  match assoc_find factors o with
  | none => Except.error (PyErr.keyError (flow_label o))
  | some fo =>
    match assoc_find factors i with
    | none => Except.error (PyErr.keyError (flow_label i))
    | some fi => Except.ok (RelConstr.mk i o t (fo t) (fi t))

/-- The `except ValueError` handler: only a `ValueError` raised inside the
`try` block is replaced by the labelled error naming the node and the output
flow; any other exception (in particular the `KeyError` of a missing dict
key) propagates unchanged. -/
def handle_value_error (node_label target_label : String) :
    Except PyErr RelConstr → Except PyErr RelConstr
  | Except.error (PyErr.valueError _) =>
    Except.error (PyErr.valueError
      ("Error in constraint creation, source: " ++ node_label ++
        ", target: " ++ target_label))
  | r => r

def input_output_relation_body (node_label : String) (flow_label : Nat → String)
    (factors : List (Nat × (Nat → ℚ))) (t o i : Nat) : Except PyErr RelConstr :=
  handle_value_error node_label (flow_label o)
    (relation_attempt flow_label factors t o i)

/-- Iteration order of the relation build action: for each timestep, each
output, each input. -/
def relation_index (timesteps outs ins : List Nat) : List (Nat × Nat × Nat) :=
  timesteps.flatMap (fun t => outs.flatMap (fun o => ins.map (fun i => (t, o, i))))

/-- Runs an elementwise `Except` computation over a list, stopping at the
first raised error, like a Python loop. -/
def mapExcept {α β ε : Type} : List α → (α → Except ε β) → Except ε (List β)
  | [], _ => Except.ok []
  | x :: xs, f =>
    match f x with
    | Except.error e => Except.error e
    | Except.ok y =>
      match mapExcept xs f with
      | Except.error e => Except.error e
      | Except.ok ys => Except.ok (y :: ys)

/-- All relation constraints of one converter node, or the first exception
the build action raises. -/
def input_output_relation (n : TransformerNode) (flow_label : Nat → String)
    (timesteps : List Nat) : Except PyErr (List RelConstr) :=
  mapExcept (relation_index timesteps n.outputs n.inputs)
    (fun x => input_output_relation_body n.label flow_label
      n.conversion_factors x.1 x.2.1 x.2.2)

/-- Claim C4 as stated, for one converter node: whenever some incident flow
has no conversion factor, the formulation raises the error that identifies
the offending node/flow pair (the labelled `ValueError` of the handler). -/
def transformer_claim_as_stated (n : TransformerNode)
    (flow_label : Nat → String) (timesteps : List Nat) : Prop :=
  (∃ f, (f ∈ n.inputs ∨ f ∈ n.outputs) ∧
      assoc_find n.conversion_factors f = none) →
    ∃ target, input_output_relation n flow_label timesteps =
      Except.error (PyErr.valueError
        ("Error in constraint creation, source: " ++ n.label ++
          ", target: " ++ target))

/-- Values of the solver variables of one non-convex flow: the binary status
series (indexed by integers so that the Python expression `status[t - 1]`
keeps its meaning at `t = 0`), and the startup and shutdown series. -/
structure NonConvexAssign where
  status : ℤ → ℚ
  startup : Nat → ℚ
  shutdown : Nat → ℚ

/-- Constraint emitted by `NonConvexFlow._create._min_uptime_rule`
(src/src/oemof/solph/blocks.py, lines 1992-2007) for one flow and timestep:
inside the window `max_up_down <= t <= TIMESTEPS[-1] - max_up_down` the
sliding inequality
`(status[t] - status[t-1]) * minimum_uptime - sum(status[t+u], u < minimum_uptime) <= 0`,
otherwise `status[t] - initial_status == 0`. -/
def min_uptime_rule (max_up_down minimum_uptime : ℕ) (initial_status : ℚ)
    (t_last : ℕ) (a : NonConvexAssign) (t : ℕ) : Prop :=
  if (max_up_down : ℤ) ≤ (t : ℤ) ∧
      (t : ℤ) ≤ (t_last : ℤ) - (max_up_down : ℤ) then
    (a.status (t : ℤ) - a.status ((t : ℤ) - 1)) * (minimum_uptime : ℚ) -
      (∑ u in Finset.range minimum_uptime, a.status ((t : ℤ) + (u : ℤ))) ≤ 0
  else
    a.status (t : ℤ) - initial_status = 0

/-- Constraint emitted by `NonConvexFlow._create._min_downtime_rule`
(src/src/oemof/solph/blocks.py, lines 2012-2028): inside the window the
sliding inequality
`(status[t-1] - status[t]) * minimum_downtime - minimum_downtime + sum(status[t+d], d < minimum_downtime) <= 0`,
otherwise `status[t] - initial_status == 0`. -/
def min_downtime_rule (max_up_down minimum_downtime : ℕ) (initial_status : ℚ)
    (t_last : ℕ) (a : NonConvexAssign) (t : ℕ) : Prop :=
  if (max_up_down : ℤ) ≤ (t : ℤ) ∧
      (t : ℤ) ≤ (t_last : ℤ) - (max_up_down : ℤ) then
    (a.status ((t : ℤ) - 1) - a.status (t : ℤ)) * (minimum_downtime : ℚ) -
      (minimum_downtime : ℚ) +
      (∑ d in Finset.range minimum_downtime, a.status ((t : ℤ) + (d : ℤ))) ≤ 0
  else
    a.status (t : ℤ) - initial_status = 0

/-- Constraint emitted by `NonConvexFlow._create._startup_rule`
(src/src/oemof/solph/blocks.py, lines 1945-1954): `m.TIMESTEPS[1]` is the
first element of the (1-based) Pyomo ordered set of 0-based timesteps, so the
guard `t > m.TIMESTEPS[1]` means `t > 0`. -/
def startup_rule (initial_status : ℚ) (a : NonConvexAssign) (t : ℕ) : Prop :=
  if 0 < t then
    a.startup t ≥ a.status (t : ℤ) - a.status ((t : ℤ) - 1)
  else
    a.startup t ≥ a.status (t : ℤ) - initial_status

/-- Constraint emitted by `NonConvexFlow._create._shutdown_rule`
(src/src/oemof/solph/blocks.py, lines 1968-1978). -/
def shutdown_rule (initial_status : ℚ) (a : NonConvexAssign) (t : ℕ) : Prop :=
  if 0 < t then
    a.shutdown t ≥ a.status ((t : ℤ) - 1) - a.status (t : ℤ)
  else
    a.shutdown t ≥ initial_status - a.status (t : ℤ)

/-- The complete constraint set emitted for one non-convex flow that is in
both `STARTUPFLOWS` and `SHUTDOWNFLOWS`: the `within=Binary` domains of the
`status`, `startup` and `shutdown` variables (lines 1915-1921), plus the
startup and shutdown rules at every timestep `t < T`. -/
def startup_shutdown_system (initial_status : ℚ) (T : ℕ)
    (a : NonConvexAssign) : Prop :=
  (∀ t, t < T → (a.status (t : ℤ) = 0 ∨ a.status (t : ℤ) = 1)) ∧
  (∀ t, t < T → (a.startup t = 0 ∨ a.startup t = 1)) ∧
  (∀ t, t < T → (a.shutdown t = 0 ∨ a.shutdown t = 1)) ∧
  (∀ t, t < T → startup_rule initial_status a t) ∧
  (∀ t, t < T → shutdown_rule initial_status a t)

/-- Claim C7 as stated: every assignment satisfying the emitted constraint
set satisfies `startup(t) - shutdown(t) == status(t) - status(t-1)` at every
timestep, with `status(-1)` taken as the initial status. -/
def startup_claim_as_stated (initial_status : ℚ) (T : ℕ) : Prop :=
  ∀ a : NonConvexAssign, startup_shutdown_system initial_status T a →
    ∀ t, t < T → a.startup t - a.shutdown t =
      a.status (t : ℤ) -
        (if t = 0 then initial_status else a.status ((t : ℤ) - 1))

/-- A bus as seen by `Bus._create` (src/src/oemof/solph/blocks/bus.py): its
node id and the node ids of its input and output neighbours. -/
structure BusNode where
  id : ℕ
  inputs : List ℕ
  outputs : List ℕ
  deriving DecidableEq

/-- One emitted bus-balance constraint keyed `(bus, p, t)`; `ins` and `outs`
record whose flow variables each side sums. -/
structure BusConstr where
  bus : ℕ
  p : ℕ
  t : ℕ
  ins : List ℕ
  outs : List ℕ
  deriving DecidableEq

/-- Satisfaction of a bus-balance constraint by a flow assignment
`flow source target p t`. -/
def BusConstr.holds (c : BusConstr) (flow : ℕ → ℕ → ℕ → ℕ → ℚ) : Prop :=
  (c.ins.map (fun i => flow i c.bus c.p c.t)).sum =
    (c.outs.map (fun o => flow c.bus o c.p c.t)).sum

/-- `Bus._create._busbalance_rule` (src/src/oemof/solph/blocks/bus.py, lines
60-71): for every `(p, t)` of the time index and every bus of the group it
forms `sum of inflows == sum of outflows` and adds it unless the expression
is the Python literal `True` — which `lhs == rhs` evaluates to exactly when
both sums are over empty lists (then both sides are the int 0); with any
flow variable on either side the comparison builds a Pyomo relational
expression instead. -/
def busbalance_constraints (group : List BusNode)
    (timeindex : List (ℕ × ℕ)) : List BusConstr :=
  timeindex.flatMap (fun pt =>
    group.flatMap (fun g =>
      if g.inputs = [] ∧ g.outputs = [] then []
      else [BusConstr.mk g.id pt.1 pt.2 g.inputs g.outputs]))

/-- The per-flow attributes that decide the `NonConvexFlow` index sets used
by claim C9: `min0` is `flow.min[0]` (absent when the min series starts
unset). -/
structure NCFlowParams where
  min0 : Option ℚ
  deriving DecidableEq

/-- `NonConvexFlow.NONCONVEX_FLOWS` (src/src/oemof/solph/blocks.py, line
1882): every `(i, o)` of the group. -/
def NONCONVEX_FLOWS (group : List (ℕ × ℕ × NCFlowParams)) : List (ℕ × ℕ) :=
  group.map (fun g => (g.1, g.2.1))

/-- `NonConvexFlow.MIN_FLOWS` (lines 1884-1885): the `(i, o)` whose flow has
`min[0] is not None`. -/
def MIN_FLOWS (group : List (ℕ × ℕ × NCFlowParams)) : List (ℕ × ℕ) :=
  (group.filter (fun g => g.2.2.min0 ≠ none)).map (fun g => (g.1, g.2.1))

/-- Index set of the binary status variable (line 1915):
`NONCONVEX_FLOWS × TIMESTEPS`. -/
def status_var_index (group : List (ℕ × ℕ × NCFlowParams))
    (timesteps : List ℕ) : List ((ℕ × ℕ) × ℕ) :=
  (NONCONVEX_FLOWS group).flatMap (fun f => timesteps.map (fun t => (f, t)))

/-- Keys of the minimum-flow constraints (lines 1931-1932): indexed over
`MIN_FLOWS × TIMESTEPS` only. -/
def min_constraint_index (group : List (ℕ × ℕ × NCFlowParams))
    (timesteps : List ℕ) : List ((ℕ × ℕ) × ℕ) :=
  (MIN_FLOWS group).flatMap (fun f => timesteps.map (fun t => (f, t)))

/-- Keys of the maximum-flow constraints (lines 1942-1943): also indexed over
`MIN_FLOWS × TIMESTEPS`, not over `NONCONVEX_FLOWS`. -/
def max_constraint_index (group : List (ℕ × ℕ × NCFlowParams))
    (timesteps : List ℕ) : List ((ℕ × ℕ) × ℕ) :=
  (MIN_FLOWS group).flatMap (fun f => timesteps.map (fun t => (f, t)))

/-- Python attribute lookup on a small attribute table. -/
def py_lookup {α : Type} : List (String × α) → String → Option α
  | [], _ => none
  | (k, v) :: rest, key => if k = key then some v else py_lookup rest key

/-- An investment-options object whose numeric attributes (e.g. the keyword
weight read by the limit constraint) live in a name table. -/
structure MultiPeriodInvestAttr where
  attrs : List (String × ℚ)

/-- A flow object as read by `additional_multiperiodinvestment_flow_limit`:
`mutliperiodinvestment` is the attribute with the misspelled name the code
reads first (absent — `none` — on every ordinary flow object, making the
access raise `AttributeError`), and `multiperiodinvestment` the correctly
spelled attribute whose value would be stored. -/
structure PyFlow where
  mutliperiodinvestment : Option MultiPeriodInvestAttr
  multiperiodinvestment : MultiPeriodInvestAttr

/-- The model state touched by
`additional_multiperiodinvestment_flow_limit`: the `isinstance` flag, the
flow dict, the invest variable it indexes (with a 2-tuple key, as the code
does), and the expressions/constraints attached so far (name, value) and
(name, proposition). -/
structure LimitModel where
  isMultiPeriodModel : Bool
  flows : List ((ℕ × ℕ) × PyFlow)
  invest2 : ℕ × ℕ → ℚ
  exprs : List (String × ℚ)
  constrs : List (String × Prop)

/-- The flow-collection loop of
`additional_multiperiodinvestment_flow_limit`
(src/src/oemof/solph/constraints/multiperiodinvestment_limit.py, lines
147-153): for every flow it evaluates
`hasattr(model.flows[i, o].mutliperiodinvestment, keyword)` — the access to
the misspelled attribute raises `AttributeError` before `hasattr` can test
anything — and on success stores the correctly spelled
`multiperiodinvestment` value. -/
def collect_mpinvest_flows (keyword : String) :
    List ((ℕ × ℕ) × PyFlow) →
      Except String (List ((ℕ × ℕ) × MultiPeriodInvestAttr))
  | [] => Except.ok []
  | (k, f) :: rest =>
    match f.mutliperiodinvestment with
    | none =>
      Except.error
        "AttributeError: 'Flow' object has no attribute 'mutliperiodinvestment'"
    | some v =>
      match collect_mpinvest_flows keyword rest with
      | Except.error e => Except.error e
      | Except.ok tail =>
        if (py_lookup v.attrs keyword).isSome then
          Except.ok ((k, f.multiperiodinvestment) :: tail)
        else
          Except.ok tail

/-- `additional_multiperiodinvestment_flow_limit`
(src/src/oemof/solph/constraints/multiperiodinvestment_limit.py, lines
142-175): rejects non-multi-period models, collects the weighted flows
(which raises before anything is attached whenever a flow object lacks the
misspelled attribute), then attaches the weighted-sum expression and the
`expr <= limit` constraint under the `mutliperiodinvest_limit_` names. -/
def additional_multiperiodinvestment_flow_limit (model : LimitModel)
    (keyword : String) (limit : ℚ) : Except String LimitModel :=
  if model.isMultiPeriodModel = false then
    Except.error
      "additional_multiperiodinvestment_limit is only applicable for MultiPeriodModels, not standard models."
  else
    match collect_mpinvest_flows keyword model.flows with
    | Except.error e => Except.error e
    | Except.ok chosen =>
      match mapExcept chosen (fun kv =>
          match py_lookup kv.2.attrs keyword with
          | none =>
            Except.error
              "AttributeError: keyword attribute missing on multiperiodinvestment"
          | some w => Except.ok (model.invest2 kv.1 * w)) with
      | Except.error e => Except.error e
      | Except.ok terms =>
        let limit_name := "mutliperiodinvest_limit_" ++ keyword
        Except.ok { model with
          exprs := model.exprs ++ [(limit_name, terms.sum)],
          constrs := model.constrs ++
            [(limit_name ++ "_constraint", terms.sum ≤ limit)] }

/-- Claim C1: for every investment flow and every period `p`, the formulation
emits the total-capacity constraint `total(0) == invest(0) + existing` for
`p = 0`, and `total(p) == total(p-1) + invest(p) - old(p)` for every `p > 0`;
this holds for the constraint emitted by `InvestmentFlowBlock` and for the one
emitted by `MultiPeriodInvestmentFlow`. -/
theorem claim_C1_total_capacity (existing : ℚ) (a : InvestAssign) (p : Nat) :
    (total_capacity_rule existing a p ↔ total_capacity_claimed existing a p) ∧
    (mp_total_capacity_rule existing a p ↔
      total_capacity_claimed existing a p) := by
  unfold total_capacity_rule mp_total_capacity_rule total_capacity_claimed
  by_cases hp : p = 0
  · simp [hp]
  · simp only [hp, if_false]
    constructor <;> (constructor <;> (intro h; linarith))

/-- Claim C2: in a multi-period model the convex investment objective
increment of `InvestmentFlowBlock` equals the claimed formula with the year
offset `periods_years p` in the discount exponent, the non-convex increment
adds `invest_status p * offset p` under the same discount, the corresponding
increments of the `blocks.py` `MultiPeriodInvestmentFlow` equal the claimed
formulas with that block's year measure (there a period index is its year
offset), and the `InvestmentFlowBlock` increment genuinely discounts by the
year offset, not by the period ordinal: the two differ on a concrete input
where `periods_years 1 = 2`. -/
theorem claim_C2_objective_discount (annuity : Nat → ℚ) (lifetime dr : ℚ)
    (periods_years : Nat → ℕ) (invest invest_status offset : Nat → ℚ)
    (p : Nat) :
    invf_convex_cost annuity lifetime dr periods_years invest p =
      claimed_convex_cost annuity lifetime dr periods_years invest p ∧
    invf_nonconvex_cost annuity lifetime dr periods_years invest
        invest_status offset p =
      claimed_nonconvex_cost annuity lifetime dr periods_years invest
        invest_status offset p ∧
    mp_convex_cost annuity lifetime dr invest p =
      claimed_convex_cost annuity lifetime dr (fun q => q) invest p ∧
    mp_nonconvex_cost annuity lifetime dr invest invest_status offset p =
      claimed_nonconvex_cost annuity lifetime dr (fun q => q) invest
        invest_status offset p ∧
    invf_convex_cost (fun _ => 1) 1 1 (fun _ => 2) (fun _ => 1) 1 ≠
      claimed_convex_cost (fun _ => 1) 1 1 (fun q => q) (fun _ => 1) 1 := by
  refine ⟨rfl, rfl, rfl, rfl, ?_⟩
  unfold invf_convex_cost claimed_convex_cost
  norm_num

theorem old_exo_loop_append (lifetime age : ℤ) (existing : ℚ)
    (years : Nat → ℤ) (l₁ l₂ : List Nat) (b : Bool) :
    old_exo_loop lifetime age existing years (l₁ ++ l₂) b =
      old_exo_loop lifetime age existing years l₁ b ++
        old_exo_loop lifetime age existing years l₂
          (old_exo_flag lifetime age years l₁ b) := by
  induction l₁ generalizing b with
  | nil => rfl
  | cons p ps ih =>
    by_cases hp : p = 0
    · simp [old_exo_loop, old_exo_flag, hp, ih]
    · by_cases hc : lifetime - age ≤ years p
      · by_cases hb : b = false
        · simp [old_exo_loop, old_exo_flag, hp, hc, hb, ih]
        · simp [old_exo_loop, old_exo_flag, hp, hc, hb, ih]
      · simp [old_exo_loop, old_exo_flag, hp, hc, ih]

theorem old_exo_flag_true (lifetime age : ℤ) (years : Nat → ℤ)
    (l : List Nat) :
    old_exo_flag lifetime age years l true = true := by
  induction l with
  | nil => rfl
  | cons p ps ih =>
    by_cases hp : p = 0
    · rw [old_exo_flag, if_pos hp]; exact ih
    · by_cases hc : lifetime - age ≤ years p
      · rw [old_exo_flag, if_neg hp, if_pos hc, if_neg (by simp)]; exact ih
      · rw [old_exo_flag, if_neg hp, if_neg hc]; exact ih

theorem old_exo_flag_false (lifetime age : ℤ) (years : Nat → ℤ)
    (l : List Nat) :
    old_exo_flag lifetime age years l false =
      l.any (old_exo_hit lifetime age years) := by
  induction l with
  | nil => rfl
  | cons p ps ih =>
    by_cases hp : p = 0
    · rw [old_exo_flag, if_pos hp, List.any_cons, ih]
      have h : old_exo_hit lifetime age years p = false := by
        simp [old_exo_hit, hp]
      rw [h, Bool.false_or]
    · by_cases hc : lifetime - age ≤ years p
      · rw [old_exo_flag, if_neg hp, if_pos hc, if_pos rfl, List.any_cons,
          old_exo_flag_true]
        have h : old_exo_hit lifetime age years p = true := by
          simp only [old_exo_hit, Bool.and_eq_true, decide_eq_true_eq]
          exact ⟨hp, hc⟩
        rw [h, Bool.true_or]
      · rw [old_exo_flag, if_neg hp, if_neg hc, List.any_cons, ih]
        have h : old_exo_hit lifetime age years p = false := by
          simp [old_exo_hit, hc]
        rw [h, Bool.false_or]

/-- Claim C3: in a model with `multi_period` set, an investment flow whose
specification has no lifetime makes the `old_rule_end` build action raise a
`ValueError` during constraint creation, regardless of where the flow sits in
the group. -/
theorem claim_C3_missing_lifetime (group : List (String × InvFlowSpec))
    (periods_years : Nat → ℤ) (P : Nat) (label : String) (f : InvFlowSpec)
    (hmem : (label, f) ∈ group) (hlt : f.lifetime = none) :
    ∃ e, old_rule_end_build true group periods_years P = Except.error e := by
  simp only [old_rule_end_build, if_true]
  induction group with
  | nil => cases hmem
  | cons g rest ih =>
    obtain ⟨lbl, gf⟩ := g
    rcases List.mem_cons.mp hmem with heq | hrest
    · cases heq
      refine ⟨"You have to specify a lifetime for a Flow with an associated " ++
        "investment object in a multi-period model! Value for " ++ label ++
        " is missing.", ?_⟩
      simp [old_rule_end_flows, old_capacity_rule_end_flow, hlt]
    · cases hflow : old_capacity_rule_end_flow lbl gf periods_years P with
      | error e => exact ⟨e, by simp [old_rule_end_flows, hflow]⟩
      | ok cs =>
        obtain ⟨e, he⟩ := ih hrest
        exact ⟨e, by simp [old_rule_end_flows, hflow, he]⟩

theorem claim_C3_missing_lifetime_witness :
    ∃ e, old_rule_end_build true [("(source, target)", ⟨none, 0, 0⟩)]
      (fun n => (n : ℤ)) 2 = Except.error e :=
  claim_C3_missing_lifetime _ _ 2 "(source, target)" ⟨none, 0, 0⟩
    (List.Mem.head _) rfl

/-- Claim C5 fails as stated: in a two-period model with `lifetime = 10`,
`age = 0`, `existing = 5` and one year per period, the condition
`lifetime - age <= periods_years p` holds in no period of the horizon, so
`old_exo[p]` is pinned to 0 everywhere and there is no period where it equals
the existing capacity. -/
theorem claim_C5_counterexample :
    ¬ old_exo_claim_as_stated 10 0 5 (fun n => (n : ℤ)) 2 := by
  unfold old_exo_claim_as_stated
  rintro ⟨p, hp, hcond, -⟩
  simp only at hcond
  omega

/-- Claim C5 amended: for every investment flow in a multi-period model, the
`old_rule_exo` constraints pin `old_exo[p]` to the existing capacity at the
first period `p ≥ 1` for which `lifetime - age ≤ periods_years p` holds — if
any period of the horizon satisfies that condition — and to zero at every
other period, including period 0 (period 0 is pinned to zero even when the
condition already holds there). -/
theorem claim_C5_old_exo_characterization (lifetime age : ℤ) (existing : ℚ)
    (years : Nat → ℤ) (P : Nat) :
    old_capacity_rule_exo lifetime age existing years P =
      (List.range P).map
        (fun p => (p, old_exo_value lifetime age existing years p)) := by
  induction P with
  | zero => rfl
  | succ P ih =>
    unfold old_capacity_rule_exo at ih ⊢
    rw [List.range_succ, old_exo_loop_append, ih, List.map_append]
    congr 1
    by_cases hP : P = 0
    · subst hP
      simp [old_exo_loop, old_exo_value]
    · by_cases hc : lifetime - age ≤ years P
      · by_cases hflag :
          old_exo_flag lifetime age years (List.range P) false = false
        · have hany : ∀ k ∈ List.range P,
              ¬(old_exo_hit lifetime age years k = true) := by
            rw [old_exo_flag_false] at hflag
            exact List.any_eq_false.mp hflag
          have hfirst : ∀ k, k < P → 0 < k →
              ¬(lifetime - age ≤ years k) := by
            intro k hk h0 hck
            apply hany k (List.mem_range.mpr hk)
            simp only [old_exo_hit, Bool.and_eq_true, decide_eq_true_eq]
            exact ⟨Nat.pos_iff_ne_zero.mp h0, hck⟩
          have hval : old_exo_value lifetime age existing years P = existing :=
            if_pos ⟨hP, hc, hfirst⟩
          rw [hflag]
          simp [old_exo_loop, hP, hc, hval]
        · have hflag' :
              old_exo_flag lifetime age years (List.range P) false = true := by
            revert hflag
            cases old_exo_flag lifetime age years (List.range P) false <;> simp
          obtain ⟨k, hkmem, hkprop⟩ := by
            have h := hflag'
            rw [old_exo_flag_false] at h
            exact List.any_eq_true.mp h
          rw [old_exo_hit, Bool.and_eq_true] at hkprop
          have hk0 : 0 < k := by
            have := of_decide_eq_true hkprop.1
            omega
          have hkc : lifetime - age ≤ years k :=
            of_decide_eq_true hkprop.2
          have hval : old_exo_value lifetime age existing years P = 0 := by
            apply if_neg
            rintro ⟨-, -, hfirst⟩
            exact hfirst k (List.mem_range.mp hkmem) hk0 hkc
          rw [hflag']
          simp [old_exo_loop, hP, hc, hval]
      · have hval : old_exo_value lifetime age existing years P = 0 := by
          apply if_neg
          rintro ⟨-, hcc, -⟩
          exact hc hcc
        simp [old_exo_loop, hP, hc, hval]

/-- Claim C4 fails as stated: for a converter whose input flow `0` has no
entry in `conversion_factors`, the build action raises the bare `KeyError` of
the dict lookup — the `except ValueError` handler never fires, so the raised
error does not carry the node/flow-pair message the claim promises. -/
theorem claim_C4_counterexample :
    ¬ transformer_claim_as_stated
      (TransformerNode.mk "trafo" [0] [1] [(1, fun _ => 1)])
      (fun k => if k = 0 then "f_in" else "f_out") [0] := by
  intro h
  obtain ⟨target, ht⟩ := h ⟨0, Or.inl (List.Mem.head _), rfl⟩
  have hres : input_output_relation
      (TransformerNode.mk "trafo" [0] [1] [(1, fun _ => 1)])
      (fun k => if k = 0 then "f_in" else "f_out") [0] =
      Except.error (PyErr.keyError "f_in") := rfl
  rw [hres] at ht
  exact PyErr.noConfusion (Except.error.inj ht)

/-- Claim C4 amended: a missing conversion factor for an incident flow makes
the relation body raise immediately — no default factor is substituted — but
the raised error is the `KeyError` of the dict lookup naming only the missing
flow, not the labelled `ValueError` identifying the node/flow pair (that
handler fires only when the factor lookup itself raises a `ValueError`). -/
theorem claim_C4_missing_factor_error (node_label : String)
    (flow_label : Nat → String) (factors : List (Nat × (Nat → ℚ)))
    (t o i : Nat)
    (h : assoc_find factors o = none ∨ assoc_find factors i = none) :
    ∃ k, (k = o ∨ k = i) ∧ assoc_find factors k = none ∧
      input_output_relation_body node_label flow_label factors t o i =
        Except.error (PyErr.keyError (flow_label k)) := by
  cases ho : assoc_find factors o with
  | none =>
    refine ⟨o, Or.inl rfl, ho, ?_⟩
    unfold input_output_relation_body
    simp only [relation_attempt, ho]
    rfl
  | some fo =>
    cases hi : assoc_find factors i with
    | none =>
      refine ⟨i, Or.inr rfl, hi, ?_⟩
      unfold input_output_relation_body
      simp only [relation_attempt, ho, hi]
      rfl
    | some fi =>
      rcases h with h | h
      · rw [ho] at h; cases h
      · rw [hi] at h; cases h

theorem claim_C4_missing_factor_error_witness :
    ∃ k, (k = 0 ∨ k = 0) ∧ assoc_find [] k = none ∧
      input_output_relation_body "trafo" (fun _ => "f") [] 0 0 0 =
        Except.error (PyErr.keyError "f") :=
  claim_C4_missing_factor_error "trafo" (fun _ => "f") [] 0 0 0 (Or.inl rfl)

/-- Claim C6: for every non-convex flow with a minimum up/downtime, inside
the window `max_up_down <= t <= t_last - max_up_down` the emitted constraint
is equivalent to the sliding-window inequality
`minimum_uptime * (status(t) - status(t-1)) <= sum of status(t..t+uptime-1)`
(resp. the downtime form), and outside that window it is equivalent to
pinning `status(t)` to the initial status. -/
theorem claim_C6_up_down_window (mud mu md : ℕ) (init : ℚ) (t_last : ℕ)
    (a : NonConvexAssign) (t : ℕ) :
    (min_uptime_rule mud mu init t_last a t ↔
      (if (mud : ℤ) ≤ (t : ℤ) ∧ (t : ℤ) ≤ (t_last : ℤ) - (mud : ℤ) then
        (mu : ℚ) * (a.status (t : ℤ) - a.status ((t : ℤ) - 1)) ≤
          ∑ u in Finset.range mu, a.status ((t : ℤ) + (u : ℤ))
      else a.status (t : ℤ) = init)) ∧
    (min_downtime_rule mud md init t_last a t ↔
      (if (mud : ℤ) ≤ (t : ℤ) ∧ (t : ℤ) ≤ (t_last : ℤ) - (mud : ℤ) then
        (md : ℚ) * (a.status ((t : ℤ) - 1) - a.status (t : ℤ)) ≤
          (md : ℚ) - ∑ d in Finset.range md, a.status ((t : ℤ) + (d : ℤ))
      else a.status (t : ℤ) = init)) := by
  unfold min_uptime_rule min_downtime_rule
  by_cases hw : (mud : ℤ) ≤ (t : ℤ) ∧ (t : ℤ) ≤ (t_last : ℤ) - (mud : ℤ)
  · rw [if_pos hw, if_pos hw, if_pos hw, if_pos hw]
    constructor
    · rw [mul_comm]
      constructor <;> intro h <;> linarith
    · rw [mul_comm]
      constructor <;> intro h <;> linarith
  · rw [if_neg hw, if_neg hw, if_neg hw, if_neg hw]
    exact ⟨sub_eq_zero, sub_eq_zero⟩

/-- Claim C7 fails as stated: with one timestep, initial status 0 and the
all-off status series, the assignment with `startup(0) = 1` and
`shutdown(0) = 0` satisfies every emitted constraint (the binaries and the
two one-sided inequalities), yet `startup(0) - shutdown(0) = 1` while
`status(0) - status(-1) = 0`: the emitted constraints do not force the
claimed equality. -/
theorem claim_C7_counterexample : ¬ startup_claim_as_stated 0 1 := by
  intro h
  have hsys : startup_shutdown_system 0 1
      (NonConvexAssign.mk (fun _ => 0) (fun _ => 1) (fun _ => 0)) := by
    refine ⟨fun t ht => Or.inl rfl, fun t ht => Or.inr rfl,
      fun t ht => Or.inl rfl, fun t ht => ?_, fun t ht => ?_⟩
    · unfold startup_rule
      split <;> norm_num
    · unfold shutdown_rule
      split <;> norm_num
  have heq := h _ hsys 0 Nat.one_pos
  simp at heq

/-- Claim C7 amended: every assignment satisfying the constraint set emitted
for a non-convex flow with startup and shutdown variables has
`status(t)` in `range 0 1` and satisfies the one-sided inequalities
`startup(t) >= status(t) - status(t-1)` and
`shutdown(t) >= status(t-1) - status(t)`, with `status(-1)` taken as the
initial status; the equality `startup(t) - shutdown(t) == status(t) -
status(t-1)` need not hold. -/
theorem claim_C7_inequalities (init : ℚ) (T : ℕ) (a : NonConvexAssign)
    (h : startup_shutdown_system init T a) (t : ℕ) (ht : t < T) :
    (a.status (t : ℤ) = 0 ∨ a.status (t : ℤ) = 1) ∧
    a.startup t ≥ a.status (t : ℤ) -
      (if t = 0 then init else a.status ((t : ℤ) - 1)) ∧
    a.shutdown t ≥ (if t = 0 then init else a.status ((t : ℤ) - 1)) -
      a.status (t : ℤ) := by
  obtain ⟨hb, -, -, hsu, hsd⟩ := h
  have h1 := hsu t ht
  have h2 := hsd t ht
  unfold startup_rule at h1
  unfold shutdown_rule at h2
  by_cases h0 : t = 0
  · subst h0
    rw [if_neg (lt_irrefl 0)] at h1
    rw [if_neg (lt_irrefl 0)] at h2
    rw [if_pos rfl]
    exact ⟨hb 0 ht, h1, h2⟩
  · have hpos : 0 < t := Nat.pos_of_ne_zero h0
    rw [if_pos hpos] at h1
    rw [if_pos hpos] at h2
    rw [if_neg h0]
    exact ⟨hb t ht, h1, h2⟩

theorem claim_C7_inequalities_witness :
    ((0 : ℚ) = 0 ∨ (0 : ℚ) = 1) ∧ (0 : ℚ) ≥ 0 - 0 ∧ (0 : ℚ) ≥ 0 - 0 :=
  claim_C7_inequalities 0 1
    (NonConvexAssign.mk (fun _ => 0) (fun _ => 0) (fun _ => 0))
    ⟨fun t ht => Or.inl rfl, fun t ht => Or.inl rfl, fun t ht => Or.inl rfl,
      fun t ht => by unfold startup_rule; split <;> norm_num,
      fun t ht => by unfold shutdown_rule; split <;> norm_num⟩
    0 Nat.one_pos

/-- Claim C8: for every balancing node and every `(p, t)` of the time index,
the formulation emits the constraint that the sum of inflow values equals the
sum of outflow values; and for a node with neither inflows nor outflows (and
no other group member under the same id) no constraint keyed `(node, p, t)`
is added. -/
theorem claim_C8_bus_balance (group : List BusNode) (timeindex : List (ℕ × ℕ))
    (g : BusNode) (p t : ℕ) (hg : g ∈ group) (hpt : (p, t) ∈ timeindex) :
    (¬(g.inputs = [] ∧ g.outputs = []) →
      BusConstr.mk g.id p t g.inputs g.outputs ∈
        busbalance_constraints group timeindex ∧
      ∀ flow, (BusConstr.mk g.id p t g.inputs g.outputs).holds flow ↔
        (g.inputs.map (fun i => flow i g.id p t)).sum =
          (g.outputs.map (fun o => flow g.id o p t)).sum) ∧
    ((g.inputs = [] ∧ g.outputs = []) →
      (∀ g2, g2 ∈ group → g2.id = g.id → g2.inputs = [] ∧ g2.outputs = []) →
      ∀ c, c ∈ busbalance_constraints group timeindex →
        ¬(c.bus = g.id ∧ c.p = p ∧ c.t = t)) := by
  constructor
  · intro hne
    refine ⟨?_, fun flow => Iff.rfl⟩
    unfold busbalance_constraints
    refine List.mem_flatMap.mpr ⟨(p, t), hpt, ?_⟩
    refine List.mem_flatMap.mpr ⟨g, hg, ?_⟩
    rw [if_neg hne]
    exact List.Mem.head _
  · rintro ⟨hin, hout⟩ hall c hc ⟨hbus, hcp, hct⟩
    unfold busbalance_constraints at hc
    obtain ⟨pt, hpt2, hc2⟩ := List.mem_flatMap.mp hc
    obtain ⟨g2, hg2, hc3⟩ := List.mem_flatMap.mp hc2
    by_cases hg2e : g2.inputs = [] ∧ g2.outputs = []
    · rw [if_pos hg2e] at hc3
      cases hc3
    · rw [if_neg hg2e] at hc3
      have hceq : c = BusConstr.mk g2.id pt.1 pt.2 g2.inputs g2.outputs :=
        List.mem_singleton.mp hc3
      have hid : g2.id = g.id := by rw [← hbus, hceq]
      exact hg2e (hall g2 hg2 hid)

theorem claim_C8_bus_balance_witness :
    BusConstr.mk 0 0 0 [1] [] ∈
      busbalance_constraints [BusNode.mk 0 [1] [], BusNode.mk 2 [] []]
        [(0, 0)] :=
  ((claim_C8_bus_balance [BusNode.mk 0 [1] [], BusNode.mk 2 [] []] [(0, 0)]
    (BusNode.mk 0 [1] []) 0 0 (List.Mem.head _) (List.Mem.head _)).1
    (by simp)).1

/-- Claim C9: a non-convex flow whose `min[0]` is unset gets a status
variable (its keys appear in the status index set over all timesteps) but is
excluded from `MIN_FLOWS`, hence no minimum-flow and no maximum-flow
constraint is emitted for it — both constraint index sets range over
`MIN_FLOWS` only, so the status variable does not gate the flow value of such
a flow. -/
theorem claim_C9_min_unset_not_gated (group : List (ℕ × ℕ × NCFlowParams))
    (timesteps : List ℕ) (i o : ℕ) (d : NCFlowParams)
    (hmem : (i, o, d) ∈ group) (hmin : d.min0 = none)
    (hall : ∀ d2, (i, o, d2) ∈ group → d2.min0 = none)
    (t : ℕ) (ht : t ∈ timesteps) :
    ((i, o), t) ∈ status_var_index group timesteps ∧
    (i, o) ∉ MIN_FLOWS group ∧
    (∀ t2, ((i, o), t2) ∉ min_constraint_index group timesteps) ∧
    (∀ t2, ((i, o), t2) ∉ max_constraint_index group timesteps) := by
  have hnotmin : (i, o) ∉ MIN_FLOWS group := by
    intro hmf
    unfold MIN_FLOWS at hmf
    obtain ⟨⟨x, y, c⟩, hg2, hge⟩ := List.mem_map.mp hmf
    have hxy : x = i ∧ y = o := by
      constructor
      · exact congrArg Prod.fst hge
      · exact congrArg Prod.snd hge
    obtain ⟨rfl, rfl⟩ := hxy
    have hg2mem := List.mem_filter.mp hg2
    have hcnone := hall c hg2mem.1
    have hne := of_decide_eq_true hg2mem.2
    exact hne hcnone
  refine ⟨?_, hnotmin, ?_, ?_⟩
  · unfold status_var_index NONCONVEX_FLOWS
    refine List.mem_flatMap.mpr ⟨(i, o), ?_, List.mem_map.mpr ⟨t, ht, rfl⟩⟩
    exact List.mem_map.mpr ⟨(i, o, d), hmem, rfl⟩
  · intro t2 hmem2
    unfold min_constraint_index at hmem2
    obtain ⟨f, hf, hfe⟩ := List.mem_flatMap.mp hmem2
    obtain ⟨t3, ht3, hte⟩ := List.mem_map.mp hfe
    apply hnotmin
    have hfeq : f = (i, o) := congrArg Prod.fst hte
    rwa [hfeq] at hf
  · intro t2 hmem2
    unfold max_constraint_index at hmem2
    obtain ⟨f, hf, hfe⟩ := List.mem_flatMap.mp hmem2
    obtain ⟨t3, ht3, hte⟩ := List.mem_map.mp hfe
    apply hnotmin
    have hfeq : f = (i, o) := congrArg Prod.fst hte
    rwa [hfeq] at hf

theorem claim_C9_min_unset_not_gated_witness :
    ((0, 1), 0) ∈ status_var_index [(0, 1, NCFlowParams.mk none)] [0] ∧
    (0, 1) ∉ MIN_FLOWS [(0, 1, NCFlowParams.mk none)] ∧
    (∀ t2, ((0, 1), t2) ∉
      min_constraint_index [(0, 1, NCFlowParams.mk none)] [0]) ∧
    (∀ t2, ((0, 1), t2) ∉
      max_constraint_index [(0, 1, NCFlowParams.mk none)] [0]) :=
  claim_C9_min_unset_not_gated [(0, 1, NCFlowParams.mk none)] [0] 0 1
    (NCFlowParams.mk none) (List.Mem.head _) rfl
    (fun d2 hd2 => by
      have h : d2 = NCFlowParams.mk none :=
        congrArg (fun x => x.2.2) (List.mem_singleton.mp hd2)
      rw [h]) 0
    (List.Mem.head _)

/-- Claim C10: on a `MultiPeriodModel` with at least one flow, none of whose
flow objects carries an attribute literally named `mutliperiodinvestment`,
`additional_multiperiodinvestment_flow_limit` raises `AttributeError` while
collecting the flows — before any limit expression or constraint is attached
to the model (the error return carries no modified model state). -/
theorem claim_C10_misspelled_attribute (model : LimitModel) (keyword : String)
    (limit : ℚ) (hmp : model.isMultiPeriodModel = true)
    (hne : model.flows ≠ [])
    (hattr : ∀ kf, kf ∈ model.flows → kf.2.mutliperiodinvestment = none) :
    additional_multiperiodinvestment_flow_limit model keyword limit =
      Except.error
        "AttributeError: 'Flow' object has no attribute 'mutliperiodinvestment'" := by
  unfold additional_multiperiodinvestment_flow_limit
  rw [hmp, if_neg (by simp : ¬(true = false))]
  cases hfl : model.flows with
  | nil => exact absurd hfl hne
  | cons kf rest =>
    obtain ⟨k, f⟩ := kf
    have h0 : f.mutliperiodinvestment = none :=
      hattr (k, f) (by rw [hfl]; exact List.Mem.head _)
    unfold collect_mpinvest_flows
    rw [h0]

theorem claim_C10_misspelled_attribute_witness :
    additional_multiperiodinvestment_flow_limit
      (LimitModel.mk true
        [((0, 1), PyFlow.mk none (MultiPeriodInvestAttr.mk []))]
        (fun _ => 0) [] []) "space" 100 =
      Except.error
        "AttributeError: 'Flow' object has no attribute 'mutliperiodinvestment'" :=
  claim_C10_misspelled_attribute
    (LimitModel.mk true
      [((0, 1), PyFlow.mk none (MultiPeriodInvestAttr.mk []))]
      (fun _ => 0) [] []) "space" 100 rfl (by simp)
    (fun kf hkf => by rw [List.mem_singleton.mp hkf])

end Solph
